import Mathlib

/-!
Verification of the A-Frame hotspot system (hotspots script, unnamed part_000).

The embedding mirrors the source directly:
* `sphericalToCartesian`, `atan2`, `calculateLookAtRotation` are the pure math
  functions, over `ℝ` (JS numbers are modelled as real numbers).
* JS objects are heap references: descriptor objects live in `descHeap`,
  hotspot arrays live in `arrHeap`, both keyed by `Nat` references.  This is
  needed because the source shares the layout table's descriptor objects and
  the layout table's `hotspots` array with the manager's in-memory state
  (`this.currentHotspots = hotspots` aliases, `push` mutates in place).
* `ManagerState` packages the `HotspotManager` fields together with the global
  `HOTSPOT_LAYOUTS` table, the heap, the mounted DOM marker nodes
  (children of the hotspots container) and the video sphere's rotation
  attribute.
-/

set_option maxRecDepth 10000

noncomputable section

/-- Cartesian coordinates as returned by `sphericalToCartesian`. -/
structure Vec3 where
  x : ℝ
  y : ℝ
  z : ℝ

/-- One hotspot descriptor object of the layout table.  The `onClick`
callback is not modelled (it only re-dispatches `changeVideo`). -/
structure HotspotData where
  id : String
  azimuth : ℝ
  elevation : ℝ
  label : Option String
  color : String

/-- One scene layout record: radius, optional yaw orientation in degrees and
a reference to the array object holding the descriptor references. -/
structure SceneLayout where
  radius : ℝ
  orientation : Option ℝ
  hotspotsArr : Nat

/-- A mounted marker node (an `a-entity` child of the hotspots container):
its element id, `position` and `rotation` attributes, the rotation attribute
of its optional label child, and the `hotspotData` / `radius` fields the
source piggybacks onto the element. -/
structure MarkerNode where
  id : String
  position : Vec3
  rotation : ℝ × ℝ × ℝ
  labelRotation : Option (ℝ × ℝ × ℝ)
  dataRef : Nat
  radius : ℝ

/-- Association-list lookup, first match wins (JS object-key / reference
lookup; also `querySelector`, which returns the first matching element). -/
def lookupA {κ α : Type} [BEq κ] : List (κ × α) → κ → Option α
  | [], _ => none
  | p :: rest, k => if p.1 == k then some p.2 else lookupA rest k

/-- In-place mutation of the entry with the given key (JS field mutation on
the object a reference designates). -/
def mapA {κ α : Type} [BEq κ] (l : List (κ × α)) (k : κ) (f : α → α) :
    List (κ × α) :=
  l.map (fun p => if p.1 == k then (p.1, f p.2) else p)

/-- The whole mutable state: the global `HOTSPOT_LAYOUTS` table, the object
heaps, and the `HotspotManager` instance fields.  `sphereRotation` is the
`rotation` attribute of the `#video-sphere` element (`none` until first
written).  `currentHotspots` is the reference to the array the manager's
in-memory list currently designates. -/
structure ManagerState where
  layouts : List (String × SceneLayout)
  descHeap : List (Nat × HotspotData)
  arrHeap : List (Nat × List Nat)
  nextRef : Nat
  mounted : List MarkerNode
  currentHotspots : Nat
  currentVideoId : String
  currentRadius : ℝ
  sphereRotation : Option (ℝ × ℝ × ℝ)

/-- Source `sphericalToCartesian(radius, azimuth, elevation)`. -/
def sphericalToCartesian (radius azimuth elevation : ℝ) : Vec3 :=
  let azimuthRad := azimuth * Real.pi / 180
  let elevationRad := elevation * Real.pi / 180
  { x := radius * Real.cos elevationRad * Real.sin azimuthRad
    y := radius * Real.sin elevationRad
    z := -radius * Real.cos elevationRad * Real.cos azimuthRad }

/-- JS `Math.atan2(y, x)` (signed zeros are not modelled; `atan2 0 0 = 0`,
matching `Math.atan2(0, 0)`). -/
def atan2 (y x : ℝ) : ℝ :=
  if 0 < x then Real.arctan (y / x)
  else if x < 0 then
    (if 0 ≤ y then Real.arctan (y / x) + Real.pi
     else Real.arctan (y / x) - Real.pi)
  else if 0 < y then Real.pi / 2
  else if y < 0 then -(Real.pi / 2)
  else 0

/-- Source `calculateLookAtRotation(x, y, z)`: the rotation attribute
`(rotationX, rotationY, 0)` in degrees (the source renders it as a string;
the numeric triple is modelled). -/
def calculateLookAtRotation (x y z : ℝ) : ℝ × ℝ × ℝ :=
  let dx := -x
  let dy := -y
  let dz := -z
  (atan2 dy (Real.sqrt (dx * dx + dz * dz)) * (180 / Real.pi),
   atan2 dx dz * (180 / Real.pi),
   0)

/-- The marker node `createHotspot(hotspotData, radius)` builds for the
descriptor designated by `dataRef`: position from `sphericalToCartesian`,
rotation from `calculateLookAtRotation`, and, when the descriptor has a
truthy label, a label child counter-rotated by +180 on yaw reusing the
parsed pitch.  `none` only on a dangling reference, which the source cannot
produce. -/
def mkMarker (heap : List (Nat × HotspotData)) (radius : ℝ) (dataRef : Nat) :
    Option MarkerNode :=
  match lookupA heap dataRef with
  | none => none
  | some d =>
    let cartesian := sphericalToCartesian radius d.azimuth d.elevation
    let rot := calculateLookAtRotation cartesian.x cartesian.y cartesian.z
    some { id := d.id
           position := cartesian
           rotation := rot
           labelRotation :=
             match d.label with
             | none => none
             | some l => if l == "" then none
                         else some (rot.1, rot.2.1 + 180, 0)
           dataRef := dataRef
           radius := radius }

/-- Source `createHotspot`: builds the marker node and appends it to the
hotspots container. -/
def createHotspot (s : ManagerState) (dataRef : Nat) (radius : ℝ) :
    ManagerState :=
  match mkMarker s.descHeap radius dataRef with
  | none => s
  | some mk => { s with mounted := s.mounted ++ [mk] }

/-- The `hotspots.forEach(...)` loop of `loadHotspotsForVideo`. -/
def mountAll (s : ManagerState) (refs : List Nat) (radius : ℝ) :
    ManagerState :=
  refs.foldl (fun st r => createHotspot st r radius) s

/-- Source `clearHotspots()`: empties the container and sets
`this.currentHotspots` to a freshly allocated empty array. -/
def clearHotspots (s : ManagerState) : ManagerState :=
  { s with mounted := []
           arrHeap := (s.nextRef, []) :: s.arrHeap
           currentHotspots := s.nextRef
           nextRef := s.nextRef + 1 }

/-- Source `loadHotspotsForVideo(videoId)`: clear, look the scene up in the
table (absent scene: stop after clearing), mount one marker per descriptor,
then record the table's own hotspots array and radius as current state. -/
def loadHotspotsForVideo (s : ManagerState) (videoId : String) :
    ManagerState :=
  match lookupA (clearHotspots s).layouts videoId with
  | none => clearHotspots s
  | some layout =>
    match lookupA (clearHotspots s).arrHeap layout.hotspotsArr with
    | none => clearHotspots s
    | some refs =>
      { mountAll (clearHotspots s) refs layout.radius with
        currentHotspots := layout.hotspotsArr
        currentRadius := layout.radius }

/-- Replace the first marker whose element id matches (what mutating the
`querySelector` result does to the container's child list). -/
def updateFirstMarker (f : MarkerNode → MarkerNode) :
    List MarkerNode → String → List MarkerNode
  | [], _ => []
  | mk :: rest, hid =>
      if mk.id == hid then f mk :: rest
      else mk :: updateFirstMarker f rest hid

/-- Source `updateHotspotPosition(hotspotId, azimuth, elevation)`: if a
marker with the id is mounted, recompute its position from its stored radius
and the new angles, and write the new angles into its descriptor object
(which the layout table shares). -/
def updateHotspotPosition (s : ManagerState) (hotspotId : String)
    (azimuth elevation : ℝ) : ManagerState :=
  match s.mounted.find? (fun mk => mk.id == hotspotId) with
  | none => s
  | some m =>
    { s with
      mounted :=
        updateFirstMarker
          (fun mk =>
            { mk with
              position := sphericalToCartesian m.radius azimuth elevation })
          s.mounted hotspotId
      descHeap :=
        match lookupA s.descHeap m.dataRef with
        | none => s.descHeap
        | some d =>
          mapA s.descHeap m.dataRef
            (fun _ => { d with azimuth := azimuth, elevation := elevation }) }

/-- The per-marker body of the `updateHotspotRadius` loop. -/
def updateMarkerRadius (s : ManagerState) (newRadius : ℝ)
    (mk : MarkerNode) : MarkerNode :=
  match lookupA s.descHeap mk.dataRef with
  | none => mk
  | some d =>
    { mk with
      position := sphericalToCartesian newRadius d.azimuth d.elevation
      radius := newRadius }

/-- Source `updateHotspotRadius(newRadius)`: store the new radius and
reposition every mounted marker from its descriptor's current angles and the
new radius. -/
def updateHotspotRadius (s : ManagerState) (newRadius : ℝ) : ManagerState :=
  { s with
    currentRadius := newRadius
    mounted := s.mounted.map (updateMarkerRadius s newRadius) }

/-- Source `addHotspot(hotspotData)`: allocate the descriptor object, mount
one marker at the current radius, then `push` the reference onto the array
`this.currentHotspots` designates (the layout table's own array when the
current scene was loaded from the table). -/
def addHotspot (s : ManagerState) (hotspotData : HotspotData) :
    ManagerState :=
  let s1 : ManagerState :=
    { s with descHeap := (s.nextRef, hotspotData) :: s.descHeap
             nextRef := s.nextRef + 1 }
  let s2 := createHotspot s1 s.nextRef s.currentRadius
  { s2 with
    arrHeap :=
      mapA s2.arrHeap s2.currentHotspots (fun old => old ++ [s.nextRef]) }

/-- Source `getHotspots()`: the contents of the in-memory array. -/
def getHotspots (s : ManagerState) : List Nat :=
  (lookupA s.arrHeap s.currentHotspots).getD []

/-- Source `getHotspotById(hotspotId)`: a snapshot of the found marker's
descriptor merged with the marker's stored radius, else `null` (`none`). -/
def getHotspotById (s : ManagerState) (hotspotId : String) :
    Option (HotspotData × ℝ) :=
  match s.mounted.find? (fun mk => mk.id == hotspotId) with
  | none => none
  | some m =>
    match lookupA s.descHeap m.dataRef with
    | none => none
    | some d => some (d, m.radius)

/-- Source `applyVideoOrientation(videoId)`: if the scene has a layout with
a defined orientation, set the sphere's rotation attribute to `0 yaw 0`. -/
def applyVideoOrientation (s : ManagerState) (videoId : String) :
    ManagerState :=
  match lookupA s.layouts videoId with
  | none => s
  | some layout =>
    match layout.orientation with
    | none => s
    | some yaw => { s with sphereRotation := some (0, yaw, 0) }

/-- First two statements of `setVideoOrientation`: create a fresh
`{ radius: 250, hotspots: [] }` entry when the scene is unknown, then store
the yaw in the layout's orientation field. -/
def storeOrientation (s : ManagerState) (videoId : String)
    (yawDegrees : ℝ) : ManagerState :=
  let s1 : ManagerState :=
    match lookupA s.layouts videoId with
    | some _ => s
    | none =>
      { s with
        layouts :=
          (videoId,
            { radius := 250, orientation := none,
              hotspotsArr := s.nextRef }) :: s.layouts
        arrHeap := (s.nextRef, []) :: s.arrHeap
        nextRef := s.nextRef + 1 }
  { s1 with
    layouts :=
      mapA s1.layouts videoId
        (fun L => { L with orientation := some yawDegrees }) }

/-- Source `setVideoOrientation(videoId, yawDegrees)`: store the yaw in the
layout table (creating the entry on demand), and apply it immediately when
the scene is the active one. -/
def setVideoOrientation (s : ManagerState) (videoId : String)
    (yawDegrees : ℝ) : ManagerState :=
  if s.currentVideoId == videoId then
    applyVideoOrientation (storeOrientation s videoId yawDegrees) videoId
  else storeOrientation s videoId yawDegrees

/-- Source `getVideoOrientation(videoId)`; an absent scene and an absent
orientation field both come back as `undefined` (`none`). -/
def getVideoOrientation (s : ManagerState) (videoId : String) : Option ℝ :=
  (lookupA s.layouts videoId).bind (fun L => L.orientation)

/-- The MutationObserver handler body of `setupVideoChangeListener`: when
the observed src id differs from the current one, record it, reload the
hotspots, then apply the new scene's orientation (in that order). -/
def handleVideoChange (s : ManagerState) (videoId : String) : ManagerState :=
  if videoId == s.currentVideoId then s
  else
    applyVideoOrientation
      (loadHotspotsForVideo { s with currentVideoId := videoId } videoId)
      videoId

/-- Source `changeVideo(videoId)`: writing the sphere's src attribute makes
the MutationObserver deliver one `handleVideoChange` (no transition when the
id did not actually change). -/
def changeVideo (s : ManagerState) (videoId : String) : ManagerState :=
  handleVideoChange s videoId

/-- Descriptor objects of `HOTSPOT_LAYOUTS`, allocated at references 0-11. -/
def entranceDoorData : HotspotData :=
  { id := "entrance-door", azimuth := 90, elevation := 1,
    label := some "To Funnel", color := "#00839a" }

def funnelTopData : HotspotData :=
  { id := "funnel-top", azimuth := 0, elevation := 1,
    label := some "To Entrance", color := "#95E1D3" }

def funnelBottomData : HotspotData :=
  { id := "funnel-bottom", azimuth := 180, elevation := 1,
    label := some "To Bottoms", color := "#F38181" }

def funnelSideData : HotspotData :=
  { id := "funnel-side", azimuth := 270, elevation := 1,
    label := some "To Lookout", color := "#AA96DA" }

def heartCenterData : HotspotData :=
  { id := "heart-center", azimuth := 0, elevation := 1,
    label := some "To Bottoms", color := "#FF69B4" }

def heartLeftData : HotspotData :=
  { id := "heart-left", azimuth := 270, elevation := 1,
    label := some "To Lookout", color := "#FFB6C1" }

def heartRightData : HotspotData :=
  { id := "heart-right", azimuth := 90, elevation := 1,
    label := some "To Funnel", color := "#FFC0CB" }

def lookoutVistaData : HotspotData :=
  { id := "lookout-vista", azimuth := 0, elevation := 1,
    label := some "To Funnel", color := "#FFD700" }

def lookoutGroundData : HotspotData :=
  { id := "lookout-ground", azimuth := 90, elevation := 1,
    label := some "To Bottoms", color := "#8B7355" }

def lookoutSkyData : HotspotData :=
  { id := "lookout-sky", azimuth := 270, elevation := 1,
    label := some "To Heart", color := "#87CEEB" }

def bottomsWaterData : HotspotData :=
  { id := "bottoms-water", azimuth := 270, elevation := 1,
    label := some "To Heart", color := "#00CED1" }

def bottomsRocksData : HotspotData :=
  { id := "bottoms-rocks", azimuth := 90, elevation := 1,
    label := some "To Lookout", color := "#696969" }

/-- The descriptor heap at page load. -/
def initialDescHeap : List (Nat × HotspotData) :=
  [(0, entranceDoorData),
   (1, funnelTopData), (2, funnelBottomData), (3, funnelSideData),
   (4, heartCenterData), (5, heartLeftData), (6, heartRightData),
   (7, lookoutVistaData), (8, lookoutGroundData), (9, lookoutSkyData),
   (10, bottomsWaterData), (11, bottomsRocksData)]

/-- The array heap at page load: the five layout arrays (references 12-16)
and the constructor's own `this.currentHotspots = []` (reference 17). -/
def initialArrHeap : List (Nat × List Nat) :=
  [(12, [0]), (13, [1, 2, 3]), (14, [4, 5, 6]), (15, [7, 8, 9]),
   (16, [10, 11]), (17, [])]

/-- The `HOTSPOT_LAYOUTS` table of the source. -/
def HOTSPOT_LAYOUTS : List (String × SceneLayout) :=
  [("entrance", { radius := 250, orientation := some (-90),
                  hotspotsArr := 12 }),
   ("funnel", { radius := 250, orientation := some 0, hotspotsArr := 13 }),
   ("heart", { radius := 250, orientation := some 0, hotspotsArr := 14 }),
   ("lookout", { radius := 250, orientation := some 0, hotspotsArr := 15 }),
   ("bottoms", { radius := 250, orientation := some 0, hotspotsArr := 16 })]

/-- The state right after the `HotspotManager` constructor ran (before the
initial load).  `currentRadius` is still unassigned in the source at this
point; it is modelled as 0 and is overwritten by the first load. -/
def initState : ManagerState :=
  { layouts := HOTSPOT_LAYOUTS
    descHeap := initialDescHeap
    arrHeap := initialArrHeap
    nextRef := 18
    mounted := []
    currentHotspots := 17
    currentVideoId := "entrance"
    currentRadius := 0
    sphereRotation := none }

/-- The state after `setupVideoChangeListener` handled the initial
`src="#entrance"`: load the entrance hotspots, then apply the entrance
orientation. -/
def startState : ManagerState :=
  applyVideoOrientation (loadHotspotsForVideo initState "entrance")
    "entrance"

/-- Position of the entrance door marker. -/
def entranceCartesian : Vec3 := sphericalToCartesian 250 90 1

/-- Rotation attribute of the entrance door marker. -/
def entranceRotation : ℝ × ℝ × ℝ :=
  calculateLookAtRotation entranceCartesian.x entranceCartesian.y
    entranceCartesian.z

/-- The marker node the initial load mounts for the entrance door. -/
def entranceDoorMarker : MarkerNode :=
  { id := "entrance-door"
    position := entranceCartesian
    rotation := entranceRotation
    labelRotation := some (entranceRotation.1, entranceRotation.2.1 + 180, 0)
    dataRef := 0
    radius := 250 }

/-- A descriptor a caller might pass to `addHotspot`. -/
def newSpotData : HotspotData :=
  { id := "new-spot", azimuth := 5, elevation := 5, label := none,
    color := "#FFFFFF" }

end

/-! Helper lemmas about the association-list heap. -/

theorem lookupA_mapA {κ α : Type} [BEq κ] [LawfulBEq κ]
    (l : List (κ × α)) (k : κ) (f : α → α) :
    lookupA (mapA l k f) k = (lookupA l k).map f := by
  induction l with
  | nil => rfl
  | cons p rest ih =>
    cases hb : p.1 == k with
    | false => simp [lookupA, mapA, hb] at ih ⊢; simpa [mapA] using ih
    | true => simp [lookupA, mapA, hb]

theorem lookupA_cons_ne {κ α : Type} [BEq κ] (k' k : κ) (v : α)
    (l : List (κ × α)) (h : (k' == k) = false) :
    lookupA ((k', v) :: l) k = lookupA l k := by
  simp [lookupA, h]

/-! Field lemmas for `clearHotspots`. -/

@[simp] theorem clearHotspots_layouts (s : ManagerState) :
    (clearHotspots s).layouts = s.layouts := rfl

@[simp] theorem clearHotspots_descHeap (s : ManagerState) :
    (clearHotspots s).descHeap = s.descHeap := rfl

@[simp] theorem clearHotspots_arrHeap (s : ManagerState) :
    (clearHotspots s).arrHeap = (s.nextRef, []) :: s.arrHeap := rfl

@[simp] theorem clearHotspots_mounted (s : ManagerState) :
    (clearHotspots s).mounted = [] := rfl

@[simp] theorem clearHotspots_currentHotspots (s : ManagerState) :
    (clearHotspots s).currentHotspots = s.nextRef := rfl

@[simp] theorem clearHotspots_nextRef (s : ManagerState) :
    (clearHotspots s).nextRef = s.nextRef + 1 := rfl

@[simp] theorem clearHotspots_currentVideoId (s : ManagerState) :
    (clearHotspots s).currentVideoId = s.currentVideoId := rfl

@[simp] theorem clearHotspots_sphereRotation (s : ManagerState) :
    (clearHotspots s).sphereRotation = s.sphereRotation := rfl

/-! Field lemmas for `createHotspot` and `mountAll`. -/

theorem createHotspot_descHeap (s : ManagerState) (r : Nat) (rad : ℝ) :
    (createHotspot s r rad).descHeap = s.descHeap := by
  unfold createHotspot; split <;> rfl

theorem createHotspot_layouts (s : ManagerState) (r : Nat) (rad : ℝ) :
    (createHotspot s r rad).layouts = s.layouts := by
  unfold createHotspot; split <;> rfl

theorem createHotspot_arrHeap (s : ManagerState) (r : Nat) (rad : ℝ) :
    (createHotspot s r rad).arrHeap = s.arrHeap := by
  unfold createHotspot; split <;> rfl

theorem createHotspot_nextRef (s : ManagerState) (r : Nat) (rad : ℝ) :
    (createHotspot s r rad).nextRef = s.nextRef := by
  unfold createHotspot; split <;> rfl

theorem createHotspot_currentHotspots (s : ManagerState) (r : Nat) (rad : ℝ) :
    (createHotspot s r rad).currentHotspots = s.currentHotspots := by
  unfold createHotspot; split <;> rfl

theorem createHotspot_currentVideoId (s : ManagerState) (r : Nat) (rad : ℝ) :
    (createHotspot s r rad).currentVideoId = s.currentVideoId := by
  unfold createHotspot; split <;> rfl

theorem createHotspot_sphereRotation (s : ManagerState) (r : Nat) (rad : ℝ) :
    (createHotspot s r rad).sphereRotation = s.sphereRotation := by
  unfold createHotspot; split <;> rfl

theorem createHotspot_mounted (s : ManagerState) (r : Nat) (rad : ℝ) :
    (createHotspot s r rad).mounted =
      s.mounted ++ (mkMarker s.descHeap rad r).toList := by
  unfold createHotspot
  cases h : mkMarker s.descHeap rad r <;> simp [h]

theorem mountAll_cons (s : ManagerState) (r : Nat) (rs : List Nat) (rad : ℝ) :
    mountAll s (r :: rs) rad = mountAll (createHotspot s r rad) rs rad := rfl

theorem mountAll_descHeap (refs : List Nat) (s : ManagerState) (rad : ℝ) :
    (mountAll s refs rad).descHeap = s.descHeap := by
  induction refs generalizing s with
  | nil => rfl
  | cons r rs ih => rw [mountAll_cons, ih, createHotspot_descHeap]

theorem mountAll_layouts (refs : List Nat) (s : ManagerState) (rad : ℝ) :
    (mountAll s refs rad).layouts = s.layouts := by
  induction refs generalizing s with
  | nil => rfl
  | cons r rs ih => rw [mountAll_cons, ih, createHotspot_layouts]

theorem mountAll_arrHeap (refs : List Nat) (s : ManagerState) (rad : ℝ) :
    (mountAll s refs rad).arrHeap = s.arrHeap := by
  induction refs generalizing s with
  | nil => rfl
  | cons r rs ih => rw [mountAll_cons, ih, createHotspot_arrHeap]

theorem mountAll_nextRef (refs : List Nat) (s : ManagerState) (rad : ℝ) :
    (mountAll s refs rad).nextRef = s.nextRef := by
  induction refs generalizing s with
  | nil => rfl
  | cons r rs ih => rw [mountAll_cons, ih, createHotspot_nextRef]

theorem mountAll_currentVideoId (refs : List Nat) (s : ManagerState)
    (rad : ℝ) : (mountAll s refs rad).currentVideoId = s.currentVideoId := by
  induction refs generalizing s with
  | nil => rfl
  | cons r rs ih => rw [mountAll_cons, ih, createHotspot_currentVideoId]

theorem mountAll_sphereRotation (refs : List Nat) (s : ManagerState)
    (rad : ℝ) : (mountAll s refs rad).sphereRotation = s.sphereRotation := by
  induction refs generalizing s with
  | nil => rfl
  | cons r rs ih => rw [mountAll_cons, ih, createHotspot_sphereRotation]

theorem mountAll_mounted (refs : List Nat) (s : ManagerState) (rad : ℝ) :
    (mountAll s refs rad).mounted =
      s.mounted ++ refs.filterMap (mkMarker s.descHeap rad) := by
  induction refs generalizing s with
  | nil => simp [mountAll]
  | cons r rs ih =>
    rw [mountAll_cons, ih, createHotspot_mounted, createHotspot_descHeap,
      List.append_assoc]
    cases h : mkMarker s.descHeap rad r <;>
      simp [List.filterMap_cons, h]

/-! Lemmas about `atan2` and `updateFirstMarker`. -/

theorem atan2_zero_zero : atan2 0 0 = 0 := by
  simp [atan2]

theorem find_updateFirstMarker (f : MarkerNode → MarkerNode)
    (hf : ∀ x, (f x).id = x.id) (l : List MarkerNode) (hid : String)
    (m : MarkerNode) (h : l.find? (fun mk => mk.id == hid) = some m) :
    (updateFirstMarker f l hid).find? (fun mk => mk.id == hid) =
      some (f m) := by
  induction l with
  | nil => simp at h
  | cons a rest ih =>
    cases hc : (a.id == hid) with
    | true =>
      have h1 : a = m := by simpa [List.find?, hc] using h
      subst h1
      have hfa : ((f a).id == hid) = true := by rw [hf]; exact hc
      simp [updateFirstMarker, hc, List.find?, hfa]
    | false =>
      have h2 : List.find? (fun mk => mk.id == hid) rest = some m := by
        simpa [List.find?, hc] using h
      simp [updateFirstMarker, hc, List.find?, ih h2]

/-! Lemmas about `loadHotspotsForVideo`. -/

theorem loadHotspotsForVideo_layouts (s : ManagerState) (vid : String) :
    (loadHotspotsForVideo s vid).layouts = s.layouts := by
  unfold loadHotspotsForVideo
  split
  · simp
  · split
    · simp
    · simp [mountAll_layouts]

theorem loadHotspotsForVideo_eq (s : ManagerState) (vid : String)
    (L : SceneLayout) (refs : List Nat)
    (hL : lookupA s.layouts vid = some L)
    (hrefs : lookupA (clearHotspots s).arrHeap L.hotspotsArr = some refs) :
    loadHotspotsForVideo s vid =
      { mountAll (clearHotspots s) refs L.radius with
        currentHotspots := L.hotspotsArr
        currentRadius := L.radius } := by
  unfold loadHotspotsForVideo
  rw [clearHotspots_layouts, hL]
  dsimp only
  rw [hrefs]

/-! Lemmas about `applyVideoOrientation`. -/

theorem applyVideoOrientation_layouts (s : ManagerState) (vid : String) :
    (applyVideoOrientation s vid).layouts = s.layouts := by
  unfold applyVideoOrientation
  split
  · rfl
  · split <;> rfl

theorem applyVideoOrientation_currentVideoId (s : ManagerState)
    (vid : String) :
    (applyVideoOrientation s vid).currentVideoId = s.currentVideoId := by
  unfold applyVideoOrientation
  split
  · rfl
  · split <;> rfl

theorem applyVideoOrientation_set (s : ManagerState) (vid : String)
    (L : SceneLayout) (yaw : ℝ) (hL : lookupA s.layouts vid = some L)
    (hyaw : L.orientation = some yaw) :
    (applyVideoOrientation s vid).sphereRotation = some (0, yaw, 0) := by
  unfold applyVideoOrientation
  rw [hL]
  dsimp only
  rw [hyaw]

/-! Lemmas about `storeOrientation`. -/

theorem storeOrientation_lookup (s : ManagerState) (vid : String) (yaw : ℝ) :
    ∃ L, lookupA (storeOrientation s vid yaw).layouts vid = some L ∧
      L.orientation = some yaw := by
  unfold storeOrientation
  cases h : lookupA s.layouts vid with
  | none =>
    refine ⟨{ radius := 250, orientation := some yaw,
              hotspotsArr := s.nextRef }, ?_, rfl⟩
    simp [mapA, lookupA]
  | some L0 =>
    refine ⟨{ L0 with orientation := some yaw }, ?_, rfl⟩
    rw [lookupA_mapA, h]
    rfl

theorem storeOrientation_currentVideoId (s : ManagerState) (vid : String)
    (yaw : ℝ) :
    (storeOrientation s vid yaw).currentVideoId = s.currentVideoId := by
  unfold storeOrientation
  cases h : lookupA s.layouts vid <;> rfl

theorem storeOrientation_sphereRotation (s : ManagerState) (vid : String)
    (yaw : ℝ) :
    (storeOrientation s vid yaw).sphereRotation = s.sphereRotation := by
  unfold storeOrientation
  cases h : lookupA s.layouts vid <;> rfl

/-! Lemma about `updateHotspotPosition`. -/

theorem updateHotspotPosition_eq (s : ManagerState) (hid : String)
    (a e : ℝ) (m : MarkerNode)
    (hm : s.mounted.find? (fun mk => mk.id == hid) = some m) :
    updateHotspotPosition s hid a e =
      { s with
        mounted :=
          updateFirstMarker
            (fun mk =>
              { mk with position := sphericalToCartesian m.radius a e })
            s.mounted hid
        descHeap :=
          match lookupA s.descHeap m.dataRef with
          | none => s.descHeap
          | some d =>
            mapA s.descHeap m.dataRef
              (fun _ => { d with azimuth := a, elevation := e }) } := by
  unfold updateHotspotPosition
  rw [hm]

/-- C1: for every radius r, azimuth a and elevation e (degrees, no bounds
checking), `sphericalToCartesian r a e` is exactly
(r·cos(e_rad)·sin(a_rad), r·sin(e_rad), -r·cos(e_rad)·cos(a_rad)) with
a_rad, e_rad the degree-to-radian conversions; in particular
`sphericalToCartesian r 0 0 = (0, 0, -r)`,
`sphericalToCartesian r 90 0 = (r, 0, 0)` and
`sphericalToCartesian r a 90 = (0, r, 0)` for any azimuth a (the real-number
model makes the floating-point-tolerance values exact). -/
theorem spherical_to_cartesian_spec (r a e : ℝ) :
    sphericalToCartesian r a e =
      { x := r * Real.cos (e * Real.pi / 180) * Real.sin (a * Real.pi / 180)
        y := r * Real.sin (e * Real.pi / 180)
        z := -r * Real.cos (e * Real.pi / 180) *
          Real.cos (a * Real.pi / 180) } ∧
    sphericalToCartesian r 0 0 = { x := 0, y := 0, z := -r } ∧
    sphericalToCartesian r 90 0 = { x := r, y := 0, z := 0 } ∧
    sphericalToCartesian r a 90 = { x := 0, y := r, z := 0 } := by
  have h90 : (90 : ℝ) * Real.pi / 180 = Real.pi / 2 := by ring
  refine ⟨rfl, ?_, ?_, ?_⟩
  · simp [sphericalToCartesian]
  · simp [sphericalToCartesian, h90, Real.sin_pi_div_two,
      Real.cos_pi_div_two]
  · simp [sphericalToCartesian, h90, Real.sin_pi_div_two,
      Real.cos_pi_div_two]

/-- C3: the facing rotation for a marker at (x, y, z) is (pitch, yaw, 0)
with pitch = atan2(-y, sqrt(x²+z²)) and yaw = atan2(-x, -z), both converted
to degrees; the origin yields (0, 0, 0) rather than an error; and a created
marker with a label gets the label rotation (pitch, yaw+180, 0). -/
theorem look_at_rotation_spec :
    (∀ x y z : ℝ, calculateLookAtRotation x y z =
      (atan2 (-y) (Real.sqrt (x ^ 2 + z ^ 2)) * (180 / Real.pi),
       atan2 (-x) (-z) * (180 / Real.pi), 0)) ∧
    calculateLookAtRotation 0 0 0 = (0, 0, 0) ∧
    (∀ (heap : List (Nat × HotspotData)) (radius : ℝ) (r : Nat)
        (d : HotspotData) (mk : MarkerNode),
      lookupA heap r = some d → mkMarker heap radius r = some mk →
      mk.rotation =
        calculateLookAtRotation mk.position.x mk.position.y mk.position.z ∧
      ∀ l, d.label = some l → (l == "") = false →
        mk.labelRotation =
          some (mk.rotation.1, mk.rotation.2.1 + 180, 0)) := by
  refine ⟨?_, ?_, ?_⟩
  · intro x y z
    unfold calculateLookAtRotation
    dsimp only
    rw [show -x * -x + -z * -z = x ^ 2 + z ^ 2 by ring]
  · unfold calculateLookAtRotation
    simp [atan2_zero_zero, Real.sqrt_zero]
  · intro heap radius r d mk hlook hmk
    unfold mkMarker at hmk
    rw [hlook] at hmk
    dsimp only at hmk
    injection hmk with hmk
    subst hmk
    refine ⟨rfl, ?_⟩
    intro l hl hne
    simp [hl, hne]

/-- Witness for C3: the entrance-door marker of the layout table, mounted at
radius 250, has the computed facing rotation and the +180-yaw label
rotation. -/
theorem look_at_rotation_spec_witness :
    lookupA initialDescHeap 0 = some entranceDoorData ∧
    mkMarker initialDescHeap 250 0 = some entranceDoorMarker ∧
    entranceDoorMarker.rotation =
      calculateLookAtRotation entranceDoorMarker.position.x
        entranceDoorMarker.position.y entranceDoorMarker.position.z ∧
    entranceDoorMarker.labelRotation =
      some (entranceDoorMarker.rotation.1,
        entranceDoorMarker.rotation.2.1 + 180, 0) := by
  refine ⟨rfl, rfl, ?_, ?_⟩
  · exact (look_at_rotation_spec.2.2 initialDescHeap 250 0 entranceDoorData
      entranceDoorMarker rfl rfl).1
  · exact (look_at_rotation_spec.2.2 initialDescHeap 250 0 entranceDoorData
      entranceDoorMarker rfl rfl).2 "To Funnel" rfl (by decide)

/-- C5: for every scene id absent from the layout table,
`loadHotspotsForVideo` clears the previously mounted markers, leaves zero
mounted markers and an empty in-memory list, and does not throw (the
operation is a total function returning a well-formed state). -/
theorem unknown_scene_silent_noop (s : ManagerState) (vid : String)
    (h : lookupA s.layouts vid = none) :
    (loadHotspotsForVideo s vid).mounted = [] ∧
    lookupA (loadHotspotsForVideo s vid).arrHeap
      (loadHotspotsForVideo s vid).currentHotspots = some [] := by
  have hload : loadHotspotsForVideo s vid = clearHotspots s := by
    unfold loadHotspotsForVideo
    rw [clearHotspots_layouts, h]
  rw [hload]
  refine ⟨rfl, ?_⟩
  rw [clearHotspots_arrHeap, clearHotspots_currentHotspots]
  simp [lookupA]

/-- Witness for C5: loading the unknown scene id "nowhere" on the freshly
constructed manager. -/
theorem unknown_scene_silent_noop_witness :
    lookupA initState.layouts "nowhere" = none ∧
    (loadHotspotsForVideo initState "nowhere").mounted = [] ∧
    lookupA (loadHotspotsForVideo initState "nowhere").arrHeap
      (loadHotspotsForVideo initState "nowhere").currentHotspots =
      some [] := by
  exact ⟨rfl, (unknown_scene_silent_noop initState "nowhere" rfl).1,
    (unknown_scene_silent_noop initState "nowhere" rfl).2⟩

/-- C7: `updateHotspotRadius newRadius` stores the new manager radius,
leaves the layout table (and both heaps) unchanged, and repositions every
mounted marker via `sphericalToCartesian` from its descriptor's existing
azimuth/elevation and the new radius, also storing the new radius on the
marker. -/
theorem update_radius_spec (s : ManagerState) (r : ℝ) :
    (updateHotspotRadius s r).currentRadius = r ∧
    (updateHotspotRadius s r).layouts = s.layouts ∧
    (updateHotspotRadius s r).arrHeap = s.arrHeap ∧
    (updateHotspotRadius s r).descHeap = s.descHeap ∧
    (updateHotspotRadius s r).mounted =
      s.mounted.map (updateMarkerRadius s r) ∧
    (∀ (mk : MarkerNode) (d : HotspotData),
      lookupA s.descHeap mk.dataRef = some d →
      updateMarkerRadius s r mk =
        { mk with
          position := sphericalToCartesian r d.azimuth d.elevation
          radius := r }) := by
  refine ⟨rfl, rfl, rfl, rfl, rfl, ?_⟩
  intro mk d hd
  unfold updateMarkerRadius
  rw [hd]

/-- Witness for C7: updating the radius to 100 on the initial entrance
state repositions the entrance-door marker with the new radius. -/
theorem update_radius_spec_witness :
    (updateHotspotRadius startState 100).currentRadius = 100 ∧
    lookupA startState.descHeap entranceDoorMarker.dataRef =
      some entranceDoorData ∧
    updateMarkerRadius startState 100 entranceDoorMarker =
      { entranceDoorMarker with
        position := sphericalToCartesian 100 entranceDoorData.azimuth
          entranceDoorData.elevation
        radius := 100 } := by
  exact ⟨(update_radius_spec startState 100).1, rfl,
    (update_radius_spec startState 100).2.2.2.2.2 entranceDoorMarker
      entranceDoorData rfl⟩

/-- C9: `getHotspotById` returns, for a mounted marker, the snapshot of its
descriptor (azimuth, elevation, color, label) paired with the marker's
stored radius; for an id that is not mounted it returns the sentinel
`none`. -/
theorem get_hotspot_by_id_spec (s : ManagerState) (hid : String) :
    (∀ (m : MarkerNode) (d : HotspotData),
      s.mounted.find? (fun mk => mk.id == hid) = some m →
      lookupA s.descHeap m.dataRef = some d →
      getHotspotById s hid = some (d, m.radius)) ∧
    (s.mounted.find? (fun mk => mk.id == hid) = none →
      getHotspotById s hid = none) := by
  constructor
  · intro m d hm hd
    unfold getHotspotById
    rw [hm]
    dsimp only
    rw [hd]
  · intro h
    unfold getHotspotById
    rw [h]

/-- Witness for C9: the mounted entrance-door marker resolves to its table
descriptor with radius 250, and the unmounted id "ghost" to `none`. -/
theorem get_hotspot_by_id_spec_witness :
    startState.mounted.find? (fun mk => mk.id == "entrance-door") =
      some entranceDoorMarker ∧
    lookupA startState.descHeap entranceDoorMarker.dataRef =
      some entranceDoorData ∧
    getHotspotById startState "entrance-door" =
      some (entranceDoorData, entranceDoorMarker.radius) ∧
    startState.mounted.find? (fun mk => mk.id == "ghost") = none ∧
    getHotspotById startState "ghost" = none := by
  refine ⟨rfl, rfl, ?_, rfl, ?_⟩
  · exact (get_hotspot_by_id_spec startState "entrance-door").1
      entranceDoorMarker entranceDoorData rfl rfl
  · exact (get_hotspot_by_id_spec startState "ghost").2 rfl

/-- C6: calling `updateHotspotPosition` on a mounted marker with the
marker's own stored azimuth and elevation leaves its rendered position (in
fact the whole marker node) unchanged, and calling it with an id that is
not mounted is a silent no-op leaving the entire manager state unchanged. -/
theorem update_position_roundtrip_noop :
    (∀ (s : ManagerState) (hid : String) (m : MarkerNode) (d : HotspotData),
      s.mounted.find? (fun mk => mk.id == hid) = some m →
      lookupA s.descHeap m.dataRef = some d →
      m.position = sphericalToCartesian m.radius d.azimuth d.elevation →
      (updateHotspotPosition s hid d.azimuth d.elevation).mounted.find?
        (fun mk => mk.id == hid) = some m) ∧
    (∀ (s : ManagerState) (hid : String) (a e : ℝ),
      s.mounted.find? (fun mk => mk.id == hid) = none →
      updateHotspotPosition s hid a e = s) := by
  constructor
  · intro s hid m d hm hd hpos
    rw [updateHotspotPosition_eq s hid d.azimuth d.elevation m hm]
    have hfind := find_updateFirstMarker
      (fun mk =>
        { mk with
          position := sphericalToCartesian m.radius d.azimuth d.elevation })
      (fun x => rfl) s.mounted hid m hm
    dsimp only
    rw [hfind]
    rcases m with ⟨mid, mpos, mrot, mlab, mref, mrad⟩
    dsimp only at hpos
    subst hpos
    rfl
  · intro s hid a e h
    unfold updateHotspotPosition
    rw [h]

/-- Witness for C6: the mounted entrance-door marker is unchanged when its
own azimuth 90 and elevation 1 are re-applied, and the unmounted id "ghost"
leaves the state untouched. -/
theorem update_position_roundtrip_noop_witness :
    startState.mounted.find? (fun mk => mk.id == "entrance-door") =
      some entranceDoorMarker ∧
    lookupA startState.descHeap entranceDoorMarker.dataRef =
      some entranceDoorData ∧
    entranceDoorMarker.position =
      sphericalToCartesian entranceDoorMarker.radius
        entranceDoorData.azimuth entranceDoorData.elevation ∧
    (updateHotspotPosition startState "entrance-door"
        entranceDoorData.azimuth entranceDoorData.elevation).mounted.find?
      (fun mk => mk.id == "entrance-door") = some entranceDoorMarker ∧
    startState.mounted.find? (fun mk => mk.id == "ghost") = none ∧
    updateHotspotPosition startState "ghost" 0 0 = startState := by
  refine ⟨rfl, rfl, rfl, ?_, rfl, ?_⟩
  · exact update_position_roundtrip_noop.1 startState "entrance-door"
      entranceDoorMarker entranceDoorData rfl rfl rfl
  · exact update_position_roundtrip_noop.2 startState "ghost" 0 0 rfl

/-- C8: `setVideoOrientation sceneId yawDegrees` stores the yaw as the
layout's orientation (creating the entry on demand), `getVideoOrientation`
then returns it, and the yaw reaches the sphere immediately exactly when
the scene is the active one: an inactive scene leaves the sphere rotation
unchanged until that scene becomes active. -/
theorem set_video_orientation_spec (s : ManagerState) (vid : String)
    (yaw : ℝ) :
    getVideoOrientation (setVideoOrientation s vid yaw) vid = some yaw ∧
    (s.currentVideoId = vid →
      (setVideoOrientation s vid yaw).sphereRotation = some (0, yaw, 0)) ∧
    (s.currentVideoId ≠ vid →
      (setVideoOrientation s vid yaw).sphereRotation = s.sphereRotation) ∧
    (s.currentVideoId ≠ vid →
      (handleVideoChange (setVideoOrientation s vid yaw) vid).sphereRotation
        = some (0, yaw, 0)) := by
  obtain ⟨L, hL, hyaw⟩ := storeOrientation_lookup s vid yaw
  refine ⟨?_, ?_, ?_, ?_⟩
  · unfold getVideoOrientation setVideoOrientation
    cases hc : (s.currentVideoId == vid) with
    | true =>
      simp only [if_true]
      rw [applyVideoOrientation_layouts, hL]
      simp [hyaw]
    | false =>
      simp only [Bool.false_eq_true, if_false]
      rw [hL]
      simp [hyaw]
  · intro h
    have hc : (s.currentVideoId == vid) = true := by simp [h]
    unfold setVideoOrientation
    rw [hc]
    simp only [if_true]
    exact applyVideoOrientation_set _ _ L yaw hL hyaw
  · intro h
    have hc : (s.currentVideoId == vid) = false := by simp [h]
    unfold setVideoOrientation
    rw [hc]
    simp only [Bool.false_eq_true, if_false]
    exact storeOrientation_sphereRotation s vid yaw
  · intro h
    have hc : (s.currentVideoId == vid) = false := by simp [h]
    have hset : setVideoOrientation s vid yaw = storeOrientation s vid yaw := by
      unfold setVideoOrientation
      rw [hc]
      simp
    rw [hset]
    have hguard : (vid == (storeOrientation s vid yaw).currentVideoId) =
        false := by
      rw [storeOrientation_currentVideoId]
      simp
      exact fun hEq => h hEq.symm
    unfold handleVideoChange
    rw [hguard]
    simp only [Bool.false_eq_true, if_false]
    refine applyVideoOrientation_set _ _ L yaw ?_ hyaw
    rw [loadHotspotsForVideo_layouts]
    exact hL

/-- Witness for C8: `setVideoOrientation "funnel" 45` while "entrance" is
active stores 45 without touching the sphere; the sphere picks up 45 when
"funnel" becomes active, and setting it while "funnel" is active applies it
immediately. -/
theorem set_video_orientation_spec_witness :
    getVideoOrientation (setVideoOrientation startState "funnel" 45)
      "funnel" = some 45 ∧
    startState.currentVideoId ≠ "funnel" ∧
    (setVideoOrientation startState "funnel" 45).sphereRotation =
      startState.sphereRotation ∧
    (handleVideoChange (setVideoOrientation startState "funnel" 45)
      "funnel").sphereRotation = some (0, 45, 0) ∧
    (handleVideoChange startState "funnel").currentVideoId = "funnel" ∧
    (setVideoOrientation (handleVideoChange startState "funnel") "funnel"
      45).sphereRotation = some (0, 45, 0) := by
  have hne : startState.currentVideoId ≠ "funnel" := by decide
  exact ⟨(set_video_orientation_spec startState "funnel" 45).1, hne,
    (set_video_orientation_spec startState "funnel" 45).2.2.1 hne,
    (set_video_orientation_spec startState "funnel" 45).2.2.2 hne, rfl,
    (set_video_orientation_spec (handleVideoChange startState "funnel")
      "funnel" 45).2.1 rfl⟩

/-- C4: for the entrance-to-funnel transition on the sample layout table,
the handler leaves exactly as many mounted markers as funnel's hotspots
list has entries (3), no entrance marker id is queryable any more, and the
handler factors as clear-then-mount (inside the load) followed by applying
the new scene's orientation. -/
theorem entrance_funnel_transition_spec :
    (handleVideoChange startState "funnel").mounted.length = 3 ∧
    ((lookupA initState.layouts "funnel").bind
      (fun L => lookupA initState.arrHeap L.hotspotsArr)).map
      List.length = some 3 ∧
    getHotspotById (handleVideoChange startState "funnel")
      "entrance-door" = none ∧
    (∀ (s : ManagerState) (vid : String),
      (vid == s.currentVideoId) = false →
      handleVideoChange s vid =
        applyVideoOrientation
          (loadHotspotsForVideo { s with currentVideoId := vid } vid)
          vid) ∧
    (∀ (s : ManagerState) (vid : String) (L : SceneLayout)
        (refs : List Nat),
      lookupA s.layouts vid = some L →
      lookupA (clearHotspots s).arrHeap L.hotspotsArr = some refs →
      loadHotspotsForVideo s vid =
        { mountAll (clearHotspots s) refs L.radius with
          currentHotspots := L.hotspotsArr
          currentRadius := L.radius }) := by
  refine ⟨rfl, rfl, rfl, ?_, ?_⟩
  · intro s vid h
    unfold handleVideoChange
    rw [h]
    simp
  · intro s vid L refs hL hrefs
    exact loadHotspotsForVideo_eq s vid L refs hL hrefs

/-- Witness for C4: the transition handler at the concrete
entrance-to-funnel change, and the load decomposition at funnel's layout
(radius 250, hotspot array [1, 2, 3]). -/
theorem entrance_funnel_transition_spec_witness :
    ("funnel" == startState.currentVideoId) = false ∧
    handleVideoChange startState "funnel" =
      applyVideoOrientation
        (loadHotspotsForVideo
          { startState with currentVideoId := "funnel" } "funnel")
        "funnel" ∧
    lookupA startState.layouts "funnel" =
      some { radius := 250, orientation := some 0, hotspotsArr := 13 } ∧
    lookupA (clearHotspots startState).arrHeap (13 : Nat) =
      some [1, 2, 3] ∧
    loadHotspotsForVideo startState "funnel" =
      { mountAll (clearHotspots startState) [1, 2, 3] 250 with
        currentHotspots := 13
        currentRadius := 250 } := by
  refine ⟨by decide, ?_, rfl, rfl, ?_⟩
  · exact entrance_funnel_transition_spec.2.2.2.1 startState "funnel"
      (by decide)
  · exact entrance_funnel_transition_spec.2.2.2.2 startState "funnel"
      { radius := 250, orientation := some 0, hotspotsArr := 13 }
      [1, 2, 3] rfl rfl

/-! Helper lemmas for `addHotspot` and reload arguments. -/

theorem mkMarker_some (heap : List (Nat × HotspotData)) (rad : ℝ) (r : Nat)
    (d : HotspotData) (h : lookupA heap r = some d) :
    ∃ mk, mkMarker heap rad r = some mk ∧ mk.id = d.id ∧
      mk.radius = rad ∧ mk.dataRef = r ∧
      mk.position = sphericalToCartesian rad d.azimuth d.elevation := by
  unfold mkMarker
  rw [h]
  exact ⟨_, rfl, rfl, rfl, rfl, rfl⟩

theorem mountAll_mem (s : ManagerState) (refs : List Nat) (rad : ℝ)
    (r : Nat) (mk : MarkerNode) (hr : r ∈ refs)
    (hmk : mkMarker s.descHeap rad r = some mk) :
    mk ∈ (mountAll s refs rad).mounted := by
  rw [mountAll_mounted]
  exact List.mem_append_right _ (List.mem_filterMap.mpr ⟨r, hr, hmk⟩)

theorem addHotspot_descHeap (s : ManagerState) (hd : HotspotData) :
    (addHotspot s hd).descHeap = (s.nextRef, hd) :: s.descHeap := by
  unfold addHotspot
  dsimp only
  rw [createHotspot_descHeap]

theorem addHotspot_arrHeap (s : ManagerState) (hd : HotspotData) :
    (addHotspot s hd).arrHeap =
      mapA s.arrHeap s.currentHotspots (fun old => old ++ [s.nextRef]) := by
  unfold addHotspot
  dsimp only
  rw [createHotspot_arrHeap, createHotspot_currentHotspots]

theorem addHotspot_layouts (s : ManagerState) (hd : HotspotData) :
    (addHotspot s hd).layouts = s.layouts := by
  unfold addHotspot
  dsimp only
  rw [createHotspot_layouts]

theorem addHotspot_nextRef (s : ManagerState) (hd : HotspotData) :
    (addHotspot s hd).nextRef = s.nextRef + 1 := by
  unfold addHotspot
  dsimp only
  rw [createHotspot_nextRef]

theorem addHotspot_mounted (s : ManagerState) (hd : HotspotData) :
    (addHotspot s hd).mounted =
      s.mounted ++
        (mkMarker ((s.nextRef, hd) :: s.descHeap) s.currentRadius
          s.nextRef).toList := by
  unfold addHotspot
  dsimp only
  rw [createHotspot_mounted]

/-- Counterexample to C2 as stated: on the active entrance scene (whose
table layout has the single marker "entrance-door"), after
`addHotspot newSpotData` a reload of "entrance" mounts the added marker
too — the in-memory list is the table's own hotspots array, so the `push`
did persist the descriptor into the layout table. -/
theorem add_hotspot_lost_counterexample :
    lookupA initState.arrHeap (12 : Nat) = some [0] ∧
    (loadHotspotsForVideo (addHotspot startState newSpotData)
      "entrance").mounted.map MarkerNode.id =
      ["entrance-door", "new-spot"] ∧
    (getHotspotById
      (loadHotspotsForVideo (addHotspot startState newSpotData)
        "entrance") "new-spot").isSome = true := by
  exact ⟨rfl, rfl, rfl⟩

/-- C2 amended: `addHotspot descriptor` instantiates one marker at the
manager's current radius and appends the descriptor to the in-memory list;
but since that list is the very array object the layout table's entry for
the loaded scene references, the descriptor IS persisted into the table:
reloading the same scene re-creates its original markers plus one for the
added descriptor. -/
theorem add_hotspot_persists_spec (s : ManagerState) (hd : HotspotData)
    (vid : String) (L : SceneLayout) (refs : List Nat)
    (hvid : lookupA s.layouts vid = some L)
    (harr : L.hotspotsArr = s.currentHotspots)
    (hrefs : lookupA s.arrHeap s.currentHotspots = some refs)
    (hfresh : lookupA s.arrHeap (s.nextRef + 1) = none) :
    (∃ mk0, (addHotspot s hd).mounted = s.mounted ++ [mk0] ∧
      mk0.id = hd.id ∧ mk0.radius = s.currentRadius) ∧
    lookupA (addHotspot s hd).descHeap s.nextRef = some hd ∧
    lookupA (addHotspot s hd).arrHeap s.currentHotspots =
      some (refs ++ [s.nextRef]) ∧
    (addHotspot s hd).layouts = s.layouts ∧
    (∃ mk ∈ (loadHotspotsForVideo (addHotspot s hd) vid).mounted,
      mk.id = hd.id ∧ mk.dataRef = s.nextRef ∧ mk.radius = L.radius) := by
  have hlookup0 : lookupA ((s.nextRef, hd) :: s.descHeap) s.nextRef =
      some hd := by simp [lookupA]
  obtain ⟨mk0, hmk0, hid0, hrad0, href0, hpos0⟩ :=
    mkMarker_some ((s.nextRef, hd) :: s.descHeap) s.currentRadius
      s.nextRef hd hlookup0
  have harrLookup : lookupA (addHotspot s hd).arrHeap s.currentHotspots =
      some (refs ++ [s.nextRef]) := by
    rw [addHotspot_arrHeap, lookupA_mapA, hrefs]
    rfl
  refine ⟨⟨mk0, ?_, hid0, hrad0⟩, ?_, harrLookup, addHotspot_layouts s hd,
    ?_⟩
  · rw [addHotspot_mounted, hmk0]
    rfl
  · rw [addHotspot_descHeap]
    simp [lookupA]
  · have hne : L.hotspotsArr ≠ s.nextRef + 1 := by
      intro hEq
      rw [harr] at hEq
      rw [hEq, hfresh] at hrefs
      cases hrefs
    have hclear : lookupA
        (clearHotspots (addHotspot s hd)).arrHeap L.hotspotsArr =
        some (refs ++ [s.nextRef]) := by
      rw [clearHotspots_arrHeap, addHotspot_nextRef,
        lookupA_cons_ne _ _ _ _ (by simpa using Ne.symm hne)]
      rw [harr]
      exact harrLookup
    have hload := loadHotspotsForVideo_eq (addHotspot s hd) vid L
      (refs ++ [s.nextRef]) (by rw [addHotspot_layouts]; exact hvid) hclear
    rw [hload]
    dsimp only
    obtain ⟨mk1, hmk1, hid1, hrad1, href1, hpos1⟩ :=
      mkMarker_some (clearHotspots (addHotspot s hd)).descHeap L.radius
        s.nextRef hd
        (by rw [clearHotspots_descHeap, addHotspot_descHeap]
            simp [lookupA])
    exact ⟨mk1, mountAll_mem _ _ _ s.nextRef mk1 (by simp) hmk1,
      hid1, href1, hrad1⟩

/-- Witness for C2 (amended): adding `newSpotData` on the active entrance
scene pushes reference 19 onto the table's entrance array [0], and the
reload mounts a marker for it at the table radius 250. -/
theorem add_hotspot_persists_spec_witness :
    lookupA startState.layouts "entrance" =
      some { radius := 250, orientation := some (-90),
             hotspotsArr := 12 } ∧
    startState.currentHotspots = 12 ∧
    lookupA startState.arrHeap startState.currentHotspots = some [0] ∧
    lookupA startState.arrHeap (startState.nextRef + 1) = none ∧
    (∃ mk0, (addHotspot startState newSpotData).mounted =
        startState.mounted ++ [mk0] ∧
      mk0.id = newSpotData.id ∧ mk0.radius = startState.currentRadius) ∧
    lookupA (addHotspot startState newSpotData).arrHeap
      startState.currentHotspots = some [0, startState.nextRef] ∧
    (∃ mk ∈ (loadHotspotsForVideo (addHotspot startState newSpotData)
        "entrance").mounted,
      mk.id = newSpotData.id ∧ mk.dataRef = startState.nextRef ∧
      mk.radius = 250) := by
  have h := add_hotspot_persists_spec startState newSpotData "entrance"
    { radius := 250, orientation := some (-90), hotspotsArr := 12 } [0]
    rfl rfl rfl rfl
  exact ⟨rfl, rfl, rfl, rfl, h.1, h.2.2.1, h.2.2.2.2⟩

/-- C10: because the load installs the layout table's descriptor objects by
reference, `updateHotspotPosition id a e` on a marker mounted from the
table writes a and e into the table's own descriptor, so reloading the same
scene re-creates that marker at azimuth a and elevation e rather than at
the originally authored values. -/
theorem update_position_mutates_table_spec (s : ManagerState)
    (vid hid : String) (a e : ℝ) (L : SceneLayout) (refs : List Nat)
    (m : MarkerNode) (d : HotspotData)
    (hL : lookupA s.layouts vid = some L)
    (hrefs : lookupA s.arrHeap L.hotspotsArr = some refs)
    (hm : s.mounted.find? (fun mk => mk.id == hid) = some m)
    (hd : lookupA s.descHeap m.dataRef = some d)
    (hmem : m.dataRef ∈ refs)
    (hfresh : lookupA s.arrHeap s.nextRef = none) :
    lookupA (updateHotspotPosition s hid a e).descHeap m.dataRef =
      some { d with azimuth := a, elevation := e } ∧
    ∃ mk ∈ (loadHotspotsForVideo (updateHotspotPosition s hid a e)
        vid).mounted,
      mk.dataRef = m.dataRef ∧ mk.id = d.id ∧
      mk.position = sphericalToCartesian L.radius a e := by
  have hupd := updateHotspotPosition_eq s hid a e m hm
  have hdesc : (updateHotspotPosition s hid a e).descHeap =
      mapA s.descHeap m.dataRef
        (fun _ => { d with azimuth := a, elevation := e }) := by
    rw [hupd]
    dsimp only
    rw [hd]
  have hlook : lookupA (updateHotspotPosition s hid a e).descHeap
      m.dataRef = some { d with azimuth := a, elevation := e } := by
    rw [hdesc, lookupA_mapA, hd]
    rfl
  refine ⟨hlook, ?_⟩
  have hlay : (updateHotspotPosition s hid a e).layouts = s.layouts := by
    rw [hupd]
  have harr2 : (updateHotspotPosition s hid a e).arrHeap = s.arrHeap := by
    rw [hupd]
  have hnext : (updateHotspotPosition s hid a e).nextRef = s.nextRef := by
    rw [hupd]
  have hne : L.hotspotsArr ≠ s.nextRef := by
    intro hEq
    rw [hEq, hfresh] at hrefs
    cases hrefs
  have hclear : lookupA
      (clearHotspots (updateHotspotPosition s hid a e)).arrHeap
      L.hotspotsArr = some refs := by
    rw [clearHotspots_arrHeap, hnext, harr2,
      lookupA_cons_ne _ _ _ _ (by simpa using Ne.symm hne)]
    exact hrefs
  have hload := loadHotspotsForVideo_eq (updateHotspotPosition s hid a e)
    vid L refs (by rw [hlay]; exact hL) hclear
  rw [hload]
  dsimp only
  obtain ⟨mk1, hmk1, hid1, hrad1, href1, hpos1⟩ :=
    mkMarker_some (clearHotspots (updateHotspotPosition s hid a e)).descHeap
      L.radius m.dataRef { d with azimuth := a, elevation := e }
      (by rw [clearHotspots_descHeap]; exact hlook)
  exact ⟨mk1, mountAll_mem _ _ _ m.dataRef mk1 hmem hmk1, href1,
    hid1, hpos1⟩

/-- Witness for C10: moving the mounted entrance-door marker to azimuth 10,
elevation 20 rewrites the table's descriptor, and reloading "entrance"
re-creates the marker at `sphericalToCartesian 250 10 20`. -/
theorem update_position_mutates_table_spec_witness :
    lookupA startState.layouts "entrance" =
      some { radius := 250, orientation := some (-90),
             hotspotsArr := 12 } ∧
    lookupA startState.arrHeap (12 : Nat) = some [0] ∧
    startState.mounted.find? (fun mk => mk.id == "entrance-door") =
      some entranceDoorMarker ∧
    lookupA startState.descHeap entranceDoorMarker.dataRef =
      some entranceDoorData ∧
    entranceDoorMarker.dataRef ∈ [(0 : Nat)] ∧
    lookupA startState.arrHeap startState.nextRef = none ∧
    lookupA (updateHotspotPosition startState "entrance-door" 10
        20).descHeap entranceDoorMarker.dataRef =
      some { entranceDoorData with azimuth := 10, elevation := 20 } ∧
    (∃ mk ∈ (loadHotspotsForVideo
        (updateHotspotPosition startState "entrance-door" 10 20)
        "entrance").mounted,
      mk.dataRef = entranceDoorMarker.dataRef ∧
      mk.id = entranceDoorData.id ∧
      mk.position = sphericalToCartesian 250 10 20) := by
  have h := update_position_mutates_table_spec startState "entrance"
    "entrance-door" 10 20
    { radius := 250, orientation := some (-90), hotspotsArr := 12 } [0]
    entranceDoorMarker entranceDoorData rfl rfl rfl rfl (by decide) rfl
  exact ⟨rfl, rfl, rfl, rfl, by decide, rfl, h.1, h.2⟩
